import Mathlib

/-!
Verification of the SOCKS5 monitoring core of this repository.

The development shallowly embeds two source artifacts:

* `socks5_monitor_container.c` — the kernel-side (eBPF/TC) frame classifier
  and credential extractor (`container_traffic_monitor`).  We model the part
  of the program that runs after the Ethernet/IP/TCP headers have been
  parsed: the inputs are the destination port and the TCP payload bytes.
* `pkg/interceptor/enhanced_socks5_monitor.go` — the user-space session
  reconstruction engine (`EnhancedSOCKS5Monitor` and its methods).

Bytes are modelled as `Nat` (real payload bytes are < 256), payloads as
`List Nat`, and Go `time.Time` values as `Int` nanoseconds with the Go zero
time mapped to `0` (so `time.Since t = now - t`).

Every byte access of the Go engine goes through `readByte`/`sliceChecked`,
which return `none` exactly when the access would be out of range (a Go
slice-index panic).  Each engine operation therefore has a `...Checked`
variant returning `Option`, with `none` meaning "the Go code would have
panicked"; the plain variant is the checked one with the panic case
defaulted.  Safety of the engine is the statement that the checked variants
never return `none`.
-/

/-- Nanoseconds in one minute (`1 * time.Minute`). -/
def minuteNs : Int := 60000000000

/-- Nanoseconds in five minutes (`5 * time.Minute`). -/
def fiveMinuteNs : Int := 300000000000

/-- Bounds-checked byte read: Go `data[i]` panics unless `i < len(data)`. -/
def readByte (data : List Nat) (i : Nat) : Option Nat :=
  if i < data.length then some (data.getD i 0) else none

/-- Bounds-checked slice: Go `data[lo:hi]` panics unless `lo ≤ hi ≤ len(data)`. -/
def sliceChecked (data : List Nat) (lo hi : Nat) : Option (List Nat) :=
  if lo ≤ hi ∧ hi ≤ data.length then some ((data.drop lo).take (hi - lo)) else none

/-! ## Kernel side: `socks5_monitor_container.c` -/

/-- The `socks5_auth_event` struct.  The fixed 64-byte `username`/`password`
arrays are modelled by the list of bytes actually copied by the bounded
copy loops (the remainder of the C array is NUL padding). -/
structure Socks5AuthEvent where
  pid : Nat
  src_ip : Nat
  dst_ip : Nat
  src_port : Nat
  dst_port : Nat
  username : List Nat
  password : List Nat
  username_len : Nat
  password_len : Nat
  timestamp : Nat
deriving DecidableEq, Repr

/-- The kernel port filter of `container_traffic_monitor` (lines 84-86):
`dst_port` must be one of 1080, 1081, 7890, 7891, 8080, 8081. -/
def kernelPortOk (p : Nat) : Bool :=
  !(p != 1080 && p != 1081 && p != 7890 && p != 7891 && p != 8080 && p != 8081)

/-- The classifier guards of `container_traffic_monitor` (lines 82-96): the
frame "matches" (reaches SOCKS5 analysis) iff the destination port passes
the filter, the payload is non-empty (`payload >= data_end` rejected), and
the payload length is at least 3. -/
def containerMatches (dstPort : Nat) (payload : List Nat) : Bool :=
  if kernelPortOk dstPort = false then false
  else if payload.length = 0 then false
  else if payload.length < 3 then false
  else true

/-- The C copy loop `for (i = 0; i < cnt && i < 63; i++) { if (&p[pos+i+1] >
data_end) break; out[i] = p[pos+i]; }`, with `pos` the base offset of the
copied field.  `n` is the remaining iteration budget (`min cnt 63` at the
call site); the loop breaks when the next read would pass the end. -/
def copyBounded (data : List Nat) : Nat → Nat → List Nat
  | _, 0 => []
  | pos, Nat.succ n =>
    if data.length < pos + 1 then []
    else data.getD pos 0 :: copyBounded data (pos + 1) n

/-- `container_traffic_monitor`, from the point where headers have been
parsed: given the destination port and TCP payload (plus the ambient values
for the other event fields), produce the `socks5_auth_event` sent to the
perf map, or `none` when the program returns without emitting an event. -/
def container_traffic_monitor (pid srcIP dstIP srcPort dstPort ts : Nat)
    (payload : List Nat) : Option Socks5AuthEvent :=
  if containerMatches dstPort payload = false then none
  else if 3 ≤ payload.length ∧ payload.getD 0 0 = 1 then
    let username_len := payload.getD 1 0
    if 0 < username_len ∧ username_len < 64 ∧
        2 + username_len + 1 ≤ payload.length then
      let password_len := payload.getD (2 + username_len) 0
      if 0 < password_len ∧ password_len < 64 ∧
          2 + username_len + 1 + password_len ≤ payload.length then
        some { pid := pid, src_ip := srcIP, dst_ip := dstIP,
               src_port := srcPort, dst_port := dstPort,
               username := copyBounded payload 2 (min username_len 63),
               password :=
                 copyBounded payload (2 + username_len + 1) (min password_len 63),
               username_len := username_len, password_len := password_len,
               timestamp := ts }
      else none
    else none
  else none

/-! ## User space: `enhanced_socks5_monitor.go` -/

/-- Session key: `fmt.Sprintf("%s:%d->%s:%d", srcIP, srcPort, dstIP, dstPort)`,
modelled as the tuple itself. -/
abbrev SessionKey := String × Nat × String × Nat

/-- The lifecycle `Status` strings of a `SOCKS5Session`:
`连接中` (connecting), `认证成功` (authenticated via the direct handler),
`认证信息已提取` (credentials found by the fallback scan),
`连接成功` (connected), `连接失败(错误码: c)` (failed with code `c`). -/
inductive SessionStatus where
  | connecting
  | authenticated
  | authExtracted
  | connected
  | connectFail (code : Nat)
deriving DecidableEq, Repr

/-- The `SOCKS5Session` struct.  `Username`, `Password` and `TargetHost` are
Go strings built from payload bytes, modelled as byte lists; the Go zero
`time.Time` is modelled as `0`. -/
structure SOCKS5Session where
  sessionID : SessionKey
  proxyIP : String
  proxyPort : Nat
  username : List Nat
  password : List Nat
  targetHost : List Nat
  targetPort : Nat
  authTime : Int
  connectTime : Int
  status : SessionStatus
deriving DecidableEq, Repr

/-- The `EnhancedSOCKS5Monitor` struct.  Go maps become association lists
with at most one binding per key (maintained by `insertKey`). -/
structure EnhancedSOCKS5Monitor where
  targetPID : Nat
  authSessions : List (SessionKey × SOCKS5Session)
  packetBuffer : List (SessionKey × List Nat)
  lastAuthReport : Int
deriving DecidableEq, Repr

/-- Map lookup. -/
def lookupKey {α : Type} : List (SessionKey × α) → SessionKey → Option α
  | [], _ => none
  | (k', v) :: t, k => if k' = k then some v else lookupKey t k

/-- Map insert/replace. -/
def insertKey {α : Type} : List (SessionKey × α) → SessionKey → α →
    List (SessionKey × α)
  | [], k, v => [(k, v)]
  | (k', v') :: t, k, v =>
    if k' = k then (k, v) :: t else (k', v') :: insertKey t k v

/-- `NewEnhancedSOCKS5Monitor`. -/
def NewEnhancedSOCKS5Monitor (targetPID : Nat) : EnhancedSOCKS5Monitor :=
  { targetPID := targetPID, authSessions := [], packetBuffer := [],
    lastAuthReport := 0 }

/-- `isSOCKS5Traffic` (lines 60-80): accepted when the destination port is
in the hard-coded list, or the payload starts with `0x05` (length ≥ 2), or
starts with `0x01` (length ≥ 1).  Reads are short-circuit guarded. -/
def isSOCKS5TrafficChecked (data : List Nat) (dstPort : Nat) : Option Bool :=
  if dstPort = 1080 ∨ dstPort = 1081 ∨ dstPort = 7890 ∨ dstPort = 7891 ∨
      dstPort = 8080 ∨ dstPort = 8081 ∨ dstPort = 9050 ∨ dstPort = 9051 then
    some true
  else if 2 ≤ data.length then
    match readByte data 0 with
    | none => none
    | some b0 =>
      if b0 = 5 then some true
      else if 1 ≤ data.length then
        match readByte data 0 with
        | none => none
        | some c0 => some (decide (c0 = 1))
      else some false
  else if 1 ≤ data.length then
    match readByte data 0 with
    | none => none
    | some c0 => some (decide (c0 = 1))
  else some false

def isSOCKS5Traffic (data : List Nat) (dstPort : Nat) : Bool :=
  (isSOCKS5TrafficChecked data dstPort).getD false

/-- `accumulatePacket` (lines 83-95), at the level of one buffer slot:
append (or copy on first fragment), then truncate to 4096 bytes. -/
def accumulateBytes : Option (List Nat) → List Nat → List Nat
  | some existing, data =>
    let b := existing ++ data
    if 4096 < b.length then b.take 4096 else b
  | none, data =>
    if 4096 < data.length then data.take 4096 else data

/-- `getOrCreateSession` (lines 126-140): the freshly created session has
status `连接中` (connecting) and zero-valued credential/target/time fields. -/
def getOrCreateSession (m : EnhancedSOCKS5Monitor) (k : SessionKey)
    (proxyIP : String) (proxyPort : Nat) : SOCKS5Session :=
  match lookupKey m.authSessions k with
  | some s => s
  | none =>
    { sessionID := k, proxyIP := proxyIP, proxyPort := proxyPort,
      username := [], password := [], targetHost := [], targetPort := 0,
      authTime := 0, connectTime := 0, status := .connecting }

/-- `isAuthNegotiation`: `len(data) >= 3 && data[0] == 0x05 && data[1] >= 0x01`. -/
def isAuthNegotiationChecked (data : List Nat) : Option Bool :=
  if data.length < 3 then some false
  else
    match readByte data 0 with
    | none => none
    | some b0 =>
      if b0 ≠ 5 then some false
      else
        match readByte data 1 with
        | none => none
        | some b1 => some (decide (1 ≤ b1))

def isAuthNegotiation (data : List Nat) : Bool :=
  (isAuthNegotiationChecked data).getD false

/-- `isUsernamePasswordAuth`: `len(data) >= 3 && data[0] == 0x01`. -/
def isUsernamePasswordAuthChecked (data : List Nat) : Option Bool :=
  if data.length < 3 then some false
  else
    match readByte data 0 with
    | none => none
    | some b0 => some (decide (b0 = 1))

def isUsernamePasswordAuth (data : List Nat) : Bool :=
  (isUsernamePasswordAuthChecked data).getD false

/-- `isConnectRequest`: `len(data) >= 4 && data[0] == 0x05 && data[1] == 0x01`. -/
def isConnectRequestChecked (data : List Nat) : Option Bool :=
  if data.length < 4 then some false
  else
    match readByte data 0 with
    | none => none
    | some b0 =>
      if b0 ≠ 5 then some false
      else
        match readByte data 1 with
        | none => none
        | some b1 => some (decide (b1 = 1))

def isConnectRequest (data : List Nat) : Bool :=
  (isConnectRequestChecked data).getD false

/-- `isConnectResponse`: `len(data) >= 4 && data[0] == 0x05 && data[1] == 0x00`. -/
def isConnectResponseChecked (data : List Nat) : Option Bool :=
  if data.length < 4 then some false
  else
    match readByte data 0 with
    | none => none
    | some b0 =>
      if b0 ≠ 5 then some false
      else
        match readByte data 1 with
        | none => none
        | some b1 => some (decide (b1 = 0))

def isConnectResponse (data : List Nat) : Bool :=
  (isConnectResponseChecked data).getD false

/-- The method-listing loop of `handleAuthNegotiation` (lines 170-180):
`for i := 0; i < methodCount && i+2 < len(data); i++ { method := data[2+i]; ... }`.
Only logs; modelled for its byte accesses.  Structural recursion on a fuel
argument kept equal to `mc - i`, so running out of fuel coincides exactly
with the loop guard `i < mc` failing. -/
def authNegLoop (data : List Nat) (mc : Nat) : Nat → Nat → Option Unit
  | _, 0 => some ()
  | i, fuel + 1 =>
    if i < mc ∧ i + 2 < data.length then
      match readByte data (2 + i) with
      | none => none
      | some _ => authNegLoop data mc (i + 1) fuel
    else some ()

/-- `handleAuthNegotiation` (lines 163-182): reads `data[1]` and the offered
methods, changes no session state. -/
def handleAuthNegotiationChecked (s : SOCKS5Session) (data : List Nat) :
    Option (SOCKS5Session × Bool) :=
  if 3 ≤ data.length then
    match readByte data 1 with
    | none => none
    | some mc =>
      match authNegLoop data mc 0 mc with
      | none => none
      | some _ => some (s, false)
  else some (s, false)

def handleAuthNegotiation (s : SOCKS5Session) (data : List Nat) :
    SOCKS5Session × Bool :=
  (handleAuthNegotiationChecked s data).getD (s, false)

/-- `handleUsernamePasswordAuth` (lines 185-227).  The `Bool` is whether the
handler goes on to call `printSOCKS5AuthReport`.  Note: unlike the kernel
extractor, this code never checks `ULEN`/`PLEN` against 0 or 64 — only that
the payload is long enough for the declared lengths. -/
def handleUsernamePasswordAuthChecked (now : Int) (s : SOCKS5Session)
    (data : List Nat) : Option (SOCKS5Session × Bool) :=
  if data.length < 3 then some (s, false)
  else
    match readByte data 0 with
    | none => none
    | some ver =>
      if ver ≠ 1 then some (s, false)
      else
        match readByte data 1 with
        | none => none
        | some usernameLen =>
          if data.length < 2 + usernameLen + 1 then some (s, false)
          else
            match sliceChecked data 2 (2 + usernameLen) with
            | none => none
            | some username =>
              match readByte data (2 + usernameLen) with
              | none => none
              | some passwordLen =>
                if data.length < 2 + usernameLen + 1 + passwordLen then
                  some (s, false)
                else
                  match sliceChecked data (2 + usernameLen + 1)
                      (2 + usernameLen + 1 + passwordLen) with
                  | none => none
                  | some password =>
                    some ({ s with
                            username := username, password := password
                            authTime := now, status := .authenticated }, true)

def handleUsernamePasswordAuth (now : Int) (s : SOCKS5Session)
    (data : List Nat) : SOCKS5Session × Bool :=
  (handleUsernamePasswordAuthChecked now s data).getD (s, false)

/-- Decimal ASCII rendering of one byte, for the `%d.%d.%d.%d` format. -/
def decByte (n : Nat) : List Nat := (Nat.toDigits 10 n).map Char.toNat

/-- The `fmt.Sprintf("%d.%d.%d.%d", ...)` target host of the IPv4 branch. -/
def renderIPv4 (a b c d : Nat) : List Nat :=
  decByte a ++ [46] ++ decByte b ++ [46] ++ decByte c ++ [46] ++ decByte d

/-- UTF-8 bytes of the literal `"IPv6地址"` stored for ATYP 0x04. -/
def ipv6Marker : List Nat := [73, 80, 118, 54, 229, 156, 176, 229, 157, 128]

/-- The tail of `handleConnectRequest` (lines 261-272): if a target host was
decoded, store target and connect time; request a report iff the session
already has a username. -/
def connectFinish (now : Int) (s : SOCKS5Session) (hp : List Nat × Nat) :
    Option (SOCKS5Session × Bool) :=
  if hp.1 ≠ [] then
    some ({ s with
            targetHost := hp.1, targetPort := hp.2
            connectTime := now }, s.username ≠ [])
  else some (s, false)

/-- `handleConnectRequest` (lines 230-273).  The `Bool` is whether the
handler calls `printSOCKS5AuthReport` (target found and username known). -/
def handleConnectRequestChecked (now : Int) (s : SOCKS5Session)
    (data : List Nat) : Option (SOCKS5Session × Bool) :=
  if data.length < 4 then some (s, false)
  else
    match readByte data 1 with
    | none => none
    | some _ =>
      match readByte data 3 with
      | none => none
      | some atyp =>
        let finish := connectFinish now s
        if atyp = 1 then
          if 10 ≤ data.length then
            match readByte data 4 with
            | none => none
            | some a =>
              match readByte data 5 with
              | none => none
              | some b =>
                match readByte data 6 with
                | none => none
                | some c =>
                  match readByte data 7 with
                  | none => none
                  | some d =>
                    match readByte data 8 with
                    | none => none
                    | some p1 =>
                      match readByte data 9 with
                      | none => none
                      | some p2 =>
                        finish (renderIPv4 a b c d, p1 * 256 + p2)
          else finish ([], 0)
        else if atyp = 3 then
          if 5 ≤ data.length then
            match readByte data 4 with
            | none => none
            | some domainLen =>
              if 5 + domainLen + 2 ≤ data.length then
                match sliceChecked data 5 (5 + domainLen) with
                | none => none
                | some host =>
                  match readByte data (5 + domainLen) with
                  | none => none
                  | some p1 =>
                    match readByte data (5 + domainLen + 1) with
                    | none => none
                    | some p2 => finish (host, p1 * 256 + p2)
              else finish ([], 0)
          else finish ([], 0)
        else if atyp = 4 then finish (ipv6Marker, 0)
        else finish ([], 0)

def handleConnectRequest (now : Int) (s : SOCKS5Session) (data : List Nat) :
    SOCKS5Session × Bool :=
  (handleConnectRequestChecked now s data).getD (s, false)

/-- `handleConnectResponse` (lines 276-287): on `data[1] == 0` status becomes
`连接成功` (connected), otherwise `连接失败(错误码: data[1])`. -/
def handleConnectResponseChecked (s : SOCKS5Session) (data : List Nat) :
    Option (SOCKS5Session × Bool) :=
  if data.length < 2 then some (s, false)
  else
    match readByte data 1 with
    | none => none
    | some st =>
      if st = 0 then some ({ s with status := .connected }, false)
      else some ({ s with status := .connectFail st }, false)

def handleConnectResponse (s : SOCKS5Session) (data : List Nat) :
    SOCKS5Session × Bool :=
  (handleConnectResponseChecked s data).getD (s, false)

/-- `isPrintableString` (lines 326-336) on the byte list of a Go string
(bytes ≥ 128 decode to replacement runes > 126, so the byte-level check is
equivalent). -/
def isPrintableString (s : List Nat) : Bool :=
  !(s.length = 0 || s.length > 64) && s.all (fun c => 32 ≤ c && c ≤ 126)

/-- The scan loop of `searchAuthInData` (lines 297-322): try every offset
`i < len(data)-3`; at a candidate, require a `0x01` marker, both declared
lengths in `[1,63]`, full availability, and printability; first hit wins.
Structural recursion on a fuel argument kept equal to `data.length - 3 - i`,
so running out of fuel coincides exactly with the loop guard failing. -/
def searchLoopChecked (now : Int) (s : SOCKS5Session) (data : List Nat) :
    Nat → Nat → Option (SOCKS5Session × Bool)
  | _, 0 => some (s, false)
  | i, fuel + 1 =>
    if i < data.length - 3 then
      match readByte data i with
      | none => none
      | some bi =>
        if bi = 1 ∧ i + 1 < data.length then
          match readByte data (i + 1) with
          | none => none
          | some usernameLen =>
            if 0 < usernameLen ∧ usernameLen < 64 ∧
                i + 2 + usernameLen < data.length then
              match sliceChecked data (i + 2) (i + 2 + usernameLen) with
              | none => none
              | some username =>
                if i + 2 + usernameLen + 1 < data.length then
                  match readByte data (i + 2 + usernameLen) with
                  | none => none
                  | some passwordLen =>
                    if 0 < passwordLen ∧ passwordLen < 64 ∧
                        i + 2 + usernameLen + 1 + passwordLen ≤ data.length then
                      match sliceChecked data (i + 2 + usernameLen + 1)
                          (i + 2 + usernameLen + 1 + passwordLen) with
                      | none => none
                      | some password =>
                        if isPrintableString username ∧
                            isPrintableString password then
                          some ({ s with
                                  username := username
                                  password := password, authTime := now
                                  status := .authExtracted }, true)
                        else searchLoopChecked now s data (i + 1) fuel
                    else searchLoopChecked now s data (i + 1) fuel
                else searchLoopChecked now s data (i + 1) fuel
            else searchLoopChecked now s data (i + 1) fuel
        else searchLoopChecked now s data (i + 1) fuel
    else some (s, false)

/-- `searchAuthInData` (lines 290-323): skipped when the session already has
a username; otherwise runs the scan loop from offset 0. -/
def searchAuthInDataChecked (now : Int) (s : SOCKS5Session)
    (data : List Nat) : Option (SOCKS5Session × Bool) :=
  if s.username ≠ [] then some (s, false)
  else searchLoopChecked now s data 0 (data.length - 3)

def searchAuthInData (now : Int) (s : SOCKS5Session) (data : List Nat) :
    SOCKS5Session × Bool :=
  (searchAuthInDataChecked now s data).getD (s, false)

/-- The stage switch of `analyzeSOCKS5Protocol` (lines 106-122), in source
order: auth negotiation, then username/password auth, then connect request,
then connect response, then the fallback scan. -/
def dispatchChecked (now : Int) (s : SOCKS5Session) (data : List Nat) :
    Option (SOCKS5Session × Bool) :=
  match isAuthNegotiationChecked data with
  | none => none
  | some true => handleAuthNegotiationChecked s data
  | some false =>
    match isUsernamePasswordAuthChecked data with
    | none => none
    | some true => handleUsernamePasswordAuthChecked now s data
    | some false =>
      match isConnectRequestChecked data with
      | none => none
      | some true => handleConnectRequestChecked now s data
      | some false =>
        match isConnectResponseChecked data with
        | none => none
        | some true => handleConnectResponseChecked s data
        | some false => searchAuthInDataChecked now s data

def dispatch (now : Int) (s : SOCKS5Session) (data : List Nat) :
    SOCKS5Session × Bool :=
  (dispatchChecked now s data).getD (s, false)

/-- `printSOCKS5AuthReport` (lines 339-365): emits nothing when less than
one minute has passed since `lastAuthReport`, otherwise records the time
and emits.  The `Bool` is whether the report was printed. -/
def printSOCKS5AuthReport (now : Int) (m : EnhancedSOCKS5Monitor) :
    EnhancedSOCKS5Monitor × Bool :=
  if now - m.lastAuthReport < minuteNs then (m, false)
  else ({ m with lastAuthReport := now }, true)

/-- `analyzeSOCKS5Protocol` (lines 98-123): ignore payloads of length < 2;
otherwise create/fetch the session, dispatch on the stage, store the updated
session, and run the report path when the handler requested it. -/
def analyzeSOCKS5ProtocolChecked (now : Int) (m : EnhancedSOCKS5Monitor)
    (k : SessionKey) (data : List Nat) (dstIP : String) (dstPort : Nat) :
    Option (EnhancedSOCKS5Monitor × Bool) :=
  if data.length < 2 then some (m, false)
  else
    let s := getOrCreateSession m k dstIP dstPort
    match dispatchChecked now s data with
    | none => none
    | some (s2, want) =>
      let m2 := { m with authSessions := insertKey m.authSessions k s2 }
      some (if want then printSOCKS5AuthReport now m2 else (m2, false))

def analyzeSOCKS5Protocol (now : Int) (m : EnhancedSOCKS5Monitor)
    (k : SessionKey) (data : List Nat) (dstIP : String) (dstPort : Nat) :
    EnhancedSOCKS5Monitor × Bool :=
  (analyzeSOCKS5ProtocolChecked now m k data dstIP dstPort).getD (m, false)

/-- `AnalyzePacket` (lines 42-57): filter by `isSOCKS5Traffic`, accumulate
the fragment into the per-key buffer, then analyze the buffered bytes. -/
def AnalyzePacketChecked (m : EnhancedSOCKS5Monitor) (now : Int)
    (data : List Nat) (srcIP dstIP : String) (srcPort dstPort : Nat) :
    Option (EnhancedSOCKS5Monitor × Bool) :=
  let k : SessionKey := (srcIP, srcPort, dstIP, dstPort)
  match isSOCKS5TrafficChecked data dstPort with
  | none => none
  | some false => some (m, false)
  | some true =>
    let buf := accumulateBytes (lookupKey m.packetBuffer k) data
    let m1 := { m with packetBuffer := insertKey m.packetBuffer k buf }
    analyzeSOCKS5ProtocolChecked now m1 k buf dstIP dstPort

def AnalyzePacket (m : EnhancedSOCKS5Monitor) (now : Int) (data : List Nat)
    (srcIP dstIP : String) (srcPort dstPort : Nat) :
    EnhancedSOCKS5Monitor × Bool :=
  (AnalyzePacketChecked m now data srcIP dstIP srcPort dstPort).getD (m, false)

/-- `CleanupSessions` (lines 368-377): delete every session (and its packet
buffer) whose `AuthTime` is more than five minutes before `now`.  There is
no creation-time fallback: a never-authenticated session has the zero
`AuthTime`. -/
def CleanupSessions (now : Int) (m : EnhancedSOCKS5Monitor) :
    EnhancedSOCKS5Monitor :=
  { m with
    authSessions :=
      m.authSessions.filter (fun p => decide (now - p.2.authTime ≤ fiveMinuteNs)),
    packetBuffer :=
      m.packetBuffer.filter (fun q =>
        match lookupKey m.authSessions q.1 with
        | some s => decide (now - s.authTime ≤ fiveMinuteNs)
        | none => true) }

/-! ## Helper lemmas -/

theorem readByte_some {data : List Nat} {i : Nat} (h : i < data.length) :
    readByte data i = some (data.getD i 0) := by
  simp [readByte, h]

theorem sliceChecked_some {data : List Nat} {lo hi : Nat} (h1 : lo ≤ hi)
    (h2 : hi ≤ data.length) :
    sliceChecked data lo hi = some ((data.drop lo).take (hi - lo)) := by
  simp [sliceChecked, h1, h2]

theorem copyBounded_eq {data : List Nat} :
    ∀ (n pos : Nat), pos + n ≤ data.length →
      copyBounded data pos n = (data.drop pos).take n := by
  intro n
  induction n with
  | zero => intro pos _; simp [copyBounded]
  | succ k ih =>
    intro pos hle
    have hp : pos < data.length := by omega
    rw [copyBounded, if_neg (by omega), ih (pos + 1) (by omega)]
    rw [List.drop_eq_getElem_cons hp, List.take_succ_cons,
      List.getD_eq_getElem data 0 hp]

theorem isSOCKS5TrafficChecked_isSome (data : List Nat) (dstPort : Nat) :
    (isSOCKS5TrafficChecked data dstPort).isSome := by
  unfold isSOCKS5TrafficChecked
  repeat' split
  all_goals simp_all [readByte]

theorem isAuthNegotiationChecked_isSome (data : List Nat) :
    (isAuthNegotiationChecked data).isSome := by
  unfold isAuthNegotiationChecked
  repeat' split
  all_goals simp_all [readByte]
  all_goals omega

theorem isUsernamePasswordAuthChecked_isSome (data : List Nat) :
    (isUsernamePasswordAuthChecked data).isSome := by
  unfold isUsernamePasswordAuthChecked
  repeat' split
  all_goals simp_all [readByte]
  all_goals omega

theorem isConnectRequestChecked_isSome (data : List Nat) :
    (isConnectRequestChecked data).isSome := by
  unfold isConnectRequestChecked
  repeat' split
  all_goals simp_all [readByte]
  all_goals omega

theorem isConnectResponseChecked_isSome (data : List Nat) :
    (isConnectResponseChecked data).isSome := by
  unfold isConnectResponseChecked
  repeat' split
  all_goals simp_all [readByte]
  all_goals omega

theorem handleUsernamePasswordAuthChecked_isSome (now : Int)
    (s : SOCKS5Session) (data : List Nat) :
    (handleUsernamePasswordAuthChecked now s data).isSome := by
  unfold handleUsernamePasswordAuthChecked
  repeat' split
  all_goals simp_all [readByte, sliceChecked]
  all_goals omega

theorem connectFinish_isSome (now : Int) (s : SOCKS5Session)
    (hp : List Nat × Nat) : (connectFinish now s hp).isSome := by
  unfold connectFinish
  split
  all_goals simp

theorem handleConnectRequestChecked_isSome (now : Int) (s : SOCKS5Session)
    (data : List Nat) :
    (handleConnectRequestChecked now s data).isSome := by
  unfold handleConnectRequestChecked
  repeat' split
  all_goals simp_all [readByte, sliceChecked, connectFinish_isSome]
  all_goals omega

theorem handleConnectResponseChecked_isSome (s : SOCKS5Session)
    (data : List Nat) :
    (handleConnectResponseChecked s data).isSome := by
  unfold handleConnectResponseChecked
  repeat' split
  all_goals simp_all [readByte]
  all_goals omega

theorem authNegLoop_isSome (data : List Nat) (mc : Nat) :
    ∀ fuel i, (authNegLoop data mc i fuel).isSome := by
  intro fuel
  induction fuel with
  | zero => intro i; simp [authNegLoop]
  | succ k ih =>
    intro i
    rw [authNegLoop]
    repeat' split
    all_goals simp_all [readByte]
    all_goals omega

theorem handleAuthNegotiationChecked_isSome (s : SOCKS5Session)
    (data : List Nat) :
    (handleAuthNegotiationChecked s data).isSome := by
  unfold handleAuthNegotiationChecked
  repeat' split
  all_goals simp_all [readByte]
  · omega
  · rename_i b0opt mc uopt hpair hloop
    have := authNegLoop_isSome data mc mc 0
    simp_all

set_option maxHeartbeats 2000000 in
theorem searchLoopChecked_isSome (now : Int) (s : SOCKS5Session)
    (data : List Nat) : ∀ fuel i, (searchLoopChecked now s data i fuel).isSome := by
  intro fuel
  induction fuel with
  | zero => intro i; simp [searchLoopChecked]
  | succ k ih =>
    intro i
    rw [searchLoopChecked]
    repeat' split
    all_goals simp_all [readByte, sliceChecked]
    all_goals omega

theorem searchAuthInDataChecked_isSome (now : Int) (s : SOCKS5Session)
    (data : List Nat) :
    (searchAuthInDataChecked now s data).isSome := by
  unfold searchAuthInDataChecked
  split
  · simp
  · exact searchLoopChecked_isSome now s data (data.length - 3) 0

theorem dispatchChecked_isSome (now : Int) (s : SOCKS5Session)
    (data : List Nat) : (dispatchChecked now s data).isSome := by
  unfold dispatchChecked
  obtain ⟨b1, h1⟩ := Option.isSome_iff_exists.mp (isAuthNegotiationChecked_isSome data)
  rw [h1]
  cases b1
  · obtain ⟨b2, h2⟩ :=
      Option.isSome_iff_exists.mp (isUsernamePasswordAuthChecked_isSome data)
    rw [h2]
    cases b2
    · obtain ⟨b3, h3⟩ :=
        Option.isSome_iff_exists.mp (isConnectRequestChecked_isSome data)
      rw [h3]
      cases b3
      · obtain ⟨b4, h4⟩ :=
          Option.isSome_iff_exists.mp (isConnectResponseChecked_isSome data)
        rw [h4]
        cases b4
        · exact searchAuthInDataChecked_isSome now s data
        · exact handleConnectResponseChecked_isSome s data
      · exact handleConnectRequestChecked_isSome now s data
    · exact handleUsernamePasswordAuthChecked_isSome now s data
  · exact handleAuthNegotiationChecked_isSome s data

theorem analyzeSOCKS5ProtocolChecked_isSome (now : Int)
    (m : EnhancedSOCKS5Monitor) (k : SessionKey) (data : List Nat)
    (dstIP : String) (dstPort : Nat) :
    (analyzeSOCKS5ProtocolChecked now m k data dstIP dstPort).isSome := by
  unfold analyzeSOCKS5ProtocolChecked
  split
  · simp
  · obtain ⟨⟨s2, want⟩, hD⟩ := Option.isSome_iff_exists.mp
      (dispatchChecked_isSome now (getOrCreateSession m k dstIP dstPort) data)
    simp only [hD]
    simp

theorem AnalyzePacketChecked_isSome (m : EnhancedSOCKS5Monitor) (now : Int)
    (data : List Nat) (srcIP dstIP : String) (srcPort dstPort : Nat) :
    (AnalyzePacketChecked m now data srcIP dstIP srcPort dstPort).isSome := by
  unfold AnalyzePacketChecked
  obtain ⟨bT, hT⟩ := Option.isSome_iff_exists.mp
    (isSOCKS5TrafficChecked_isSome data dstPort)
  rw [hT]
  cases bT
  · simp
  · exact analyzeSOCKS5ProtocolChecked_isSome now _ _ _ dstIP dstPort

theorem analyzeSOCKS5Protocol_report_spec (now : Int)
    (m : EnhancedSOCKS5Monitor) (k : SessionKey) (data : List Nat)
    (dstIP : String) (dstPort : Nat) :
    ((analyzeSOCKS5Protocol now m k data dstIP dstPort).2 = true →
      minuteNs ≤ now - m.lastAuthReport ∧
      (analyzeSOCKS5Protocol now m k data dstIP dstPort).1.lastAuthReport = now) ∧
    ((analyzeSOCKS5Protocol now m k data dstIP dstPort).2 = false →
      (analyzeSOCKS5Protocol now m k data dstIP dstPort).1.lastAuthReport =
        m.lastAuthReport) := by
  unfold analyzeSOCKS5Protocol analyzeSOCKS5ProtocolChecked
  split
  · simp
  · obtain ⟨⟨s2, want⟩, hD⟩ := Option.isSome_iff_exists.mp
      (dispatchChecked_isSome now (getOrCreateSession m k dstIP dstPort) data)
    simp only [hD, Option.getD_some]
    cases want
    · simp
    · simp only [printSOCKS5AuthReport]
      split_ifs with hcool <;> simp_all <;> omega

theorem AnalyzePacket_cases (m : EnhancedSOCKS5Monitor) (now : Int)
    (data : List Nat) (srcIP dstIP : String) (srcPort dstPort : Nat) :
    (isSOCKS5Traffic data dstPort = false ∧
      AnalyzePacket m now data srcIP dstIP srcPort dstPort = (m, false)) ∨
    (isSOCKS5Traffic data dstPort = true ∧
      AnalyzePacket m now data srcIP dstIP srcPort dstPort =
        analyzeSOCKS5Protocol now
          { m with
            packetBuffer := insertKey m.packetBuffer
              (srcIP, srcPort, dstIP, dstPort)
              (accumulateBytes
                (lookupKey m.packetBuffer (srcIP, srcPort, dstIP, dstPort))
                data) }
          (srcIP, srcPort, dstIP, dstPort)
          (accumulateBytes
            (lookupKey m.packetBuffer (srcIP, srcPort, dstIP, dstPort)) data)
          dstIP dstPort) := by
  unfold AnalyzePacket AnalyzePacketChecked isSOCKS5Traffic
  obtain ⟨bT, hT⟩ := Option.isSome_iff_exists.mp
    (isSOCKS5TrafficChecked_isSome data dstPort)
  simp only [hT]
  cases bT
  · left
    simp
  · right
    refine ⟨rfl, ?_⟩
    unfold analyzeSOCKS5Protocol
    obtain ⟨r, hr⟩ := Option.isSome_iff_exists.mp
      (analyzeSOCKS5ProtocolChecked_isSome now
        { m with
          packetBuffer := insertKey m.packetBuffer
            (srcIP, srcPort, dstIP, dstPort)
            (accumulateBytes
              (lookupKey m.packetBuffer (srcIP, srcPort, dstIP, dstPort))
              data) }
        (srcIP, srcPort, dstIP, dstPort)
        (accumulateBytes
          (lookupKey m.packetBuffer (srcIP, srcPort, dstIP, dstPort)) data)
        dstIP dstPort)
    simp only [hr, Option.getD_some]

theorem AnalyzePacket_report_spec (m : EnhancedSOCKS5Monitor) (now : Int)
    (data : List Nat) (srcIP dstIP : String) (srcPort dstPort : Nat) :
    ((AnalyzePacket m now data srcIP dstIP srcPort dstPort).2 = true →
      minuteNs ≤ now - m.lastAuthReport ∧
      (AnalyzePacket m now data srcIP dstIP srcPort dstPort).1.lastAuthReport =
        now) ∧
    ((AnalyzePacket m now data srcIP dstIP srcPort dstPort).2 = false →
      (AnalyzePacket m now data srcIP dstIP srcPort dstPort).1.lastAuthReport =
        m.lastAuthReport) := by
  rcases AnalyzePacket_cases m now data srcIP dstIP srcPort dstPort with
    ⟨_, heq⟩ | ⟨_, heq⟩
  · rw [heq]
    simp
  · rw [heq]
    exact analyzeSOCKS5Protocol_report_spec now _ _ _ dstIP dstPort

theorem analyzeSOCKS5Protocol_state_ind (now x : Int)
    (m : EnhancedSOCKS5Monitor) (k : SessionKey) (data : List Nat)
    (dstIP : String) (dstPort : Nat) :
    (analyzeSOCKS5Protocol now { m with lastAuthReport := x } k data
        dstIP dstPort).1.authSessions =
      (analyzeSOCKS5Protocol now m k data dstIP dstPort).1.authSessions ∧
    (analyzeSOCKS5Protocol now { m with lastAuthReport := x } k data
        dstIP dstPort).1.packetBuffer =
      (analyzeSOCKS5Protocol now m k data dstIP dstPort).1.packetBuffer := by
  unfold analyzeSOCKS5Protocol analyzeSOCKS5ProtocolChecked
  have hsess : getOrCreateSession { m with lastAuthReport := x } k dstIP dstPort
      = getOrCreateSession m k dstIP dstPort := rfl
  split
  · simp
  · rw [hsess]
    obtain ⟨⟨s2, want⟩, hD⟩ := Option.isSome_iff_exists.mp
      (dispatchChecked_isSome now (getOrCreateSession m k dstIP dstPort) data)
    simp only [hD, Option.getD_some]
    cases want <;>
      simp [printSOCKS5AuthReport] <;> split_ifs <;> simp

theorem AnalyzePacket_state_ind (m : EnhancedSOCKS5Monitor) (x now : Int)
    (data : List Nat) (srcIP dstIP : String) (srcPort dstPort : Nat) :
    (AnalyzePacket { m with lastAuthReport := x } now data srcIP dstIP
        srcPort dstPort).1.authSessions =
      (AnalyzePacket m now data srcIP dstIP srcPort dstPort).1.authSessions ∧
    (AnalyzePacket { m with lastAuthReport := x } now data srcIP dstIP
        srcPort dstPort).1.packetBuffer =
      (AnalyzePacket m now data srcIP dstIP srcPort dstPort).1.packetBuffer := by
  rcases AnalyzePacket_cases m now data srcIP dstIP srcPort dstPort with
    ⟨hft, heq⟩ | ⟨hft, heq⟩ <;>
    rcases AnalyzePacket_cases { m with lastAuthReport := x } now data srcIP
      dstIP srcPort dstPort with ⟨hft2, heq2⟩ | ⟨hft2, heq2⟩
  · rw [heq, heq2]
    exact ⟨rfl, rfl⟩
  · rw [hft] at hft2
    simp at hft2
  · rw [hft] at hft2
    simp at hft2
  · rw [heq, heq2]
    simpa using analyzeSOCKS5Protocol_state_ind now x
      { m with
        packetBuffer := insertKey m.packetBuffer
          (srcIP, srcPort, dstIP, dstPort)
          (accumulateBytes
            (lookupKey m.packetBuffer (srcIP, srcPort, dstIP, dstPort))
            data) }
      (srcIP, srcPort, dstIP, dstPort)
      (accumulateBytes
        (lookupKey m.packetBuffer (srcIP, srcPort, dstIP, dstPort)) data)
      dstIP dstPort

theorem lookupKey_filter {α : Type} (p : SessionKey × α → Bool)
    (k : SessionKey) (v : α) :
    ∀ l : List (SessionKey × α), lookupKey l k = some v → p (k, v) = true →
      lookupKey (l.filter p) k = some v := by
  intro l
  induction l with
  | nil => intro h _; simp [lookupKey] at h
  | cons hd t ih =>
    intro h hp
    obtain ⟨k', v'⟩ := hd
    rw [lookupKey] at h
    split at h
    · rename_i hk
      injection h with hv
      subst hv
      subst hk
      rw [List.filter_cons, if_pos hp, lookupKey, if_pos rfl]
    · rename_i hk
      rw [List.filter_cons]
      split
      · rw [lookupKey, if_neg hk]
        exact ih h hp
      · exact ih h hp

theorem mem_insertKey {α : Type} (k : SessionKey) (v : α) :
    ∀ (l : List (SessionKey × α)) (q : SessionKey × α),
      q ∈ insertKey l k v → q = (k, v) ∨ q ∈ l := by
  intro l
  induction l with
  | nil => intro q hq; simp [insertKey] at hq; left; exact hq
  | cons hd t ih =>
    intro q hq
    obtain ⟨k', v'⟩ := hd
    rw [insertKey] at hq
    split at hq
    · rcases List.mem_cons.mp hq with h | h
      · left; exact h
      · right; exact List.mem_cons_of_mem _ h
    · rcases List.mem_cons.mp hq with h | h
      · right; exact h ▸ List.mem_cons_self _ _
      · rcases ih q h with h2 | h2
        · left; exact h2
        · right; exact List.mem_cons_of_mem _ h2

theorem accumulateBytes_le (ob : Option (List Nat)) (data : List Nat)
    (hob : ∀ b, ob = some b → b.length ≤ 4096) :
    (accumulateBytes ob data).length ≤ 4096 := by
  cases ob with
  | none =>
    rw [accumulateBytes]
    split <;> simp_all <;> omega
  | some b =>
    have hb := hob b rfl
    rw [accumulateBytes]
    split <;> simp_all <;> omega

theorem accumulateBytes_append (b data : List Nat) (hb : b.length ≤ 4096) :
    accumulateBytes (some b) data = b ++ data.take (4096 - b.length) := by
  rw [accumulateBytes]
  split
  · rename_i hlong
    simp only [List.length_append] at hlong
    rw [List.take_append_eq_append_take, List.take_of_length_le (by omega)]
  · rename_i hshort
    simp only [List.length_append, not_lt] at hshort
    rw [List.take_of_length_le (by omega)]

theorem isPrintableString_ne_nil {u : List Nat}
    (h : isPrintableString u = true) : u ≠ [] := by
  intro he
  subst he
  simp [isPrintableString] at h

theorem handleUsernamePasswordAuth_shape (now : Int) (s : SOCKS5Session)
    (data : List Nat) :
    handleUsernamePasswordAuth now s data = (s, false) ∨
    ∃ u pw, handleUsernamePasswordAuth now s data =
      ({ s with
         username := u, password := pw
         authTime := now, status := .authenticated }, true) := by
  unfold handleUsernamePasswordAuth handleUsernamePasswordAuthChecked
  repeat' split
  all_goals simp_all [readByte, sliceChecked]

theorem handleAuthNegotiation_eq (s : SOCKS5Session) (data : List Nat) :
    handleAuthNegotiation s data = (s, false) := by
  unfold handleAuthNegotiation handleAuthNegotiationChecked
  repeat' split
  all_goals simp_all

theorem handleConnectRequest_preserves (now : Int) (s : SOCKS5Session)
    (data : List Nat) :
    (handleConnectRequest now s data).1.username = s.username ∧
    (handleConnectRequest now s data).1.password = s.password ∧
    (handleConnectRequest now s data).1.status = s.status := by
  unfold handleConnectRequest handleConnectRequestChecked connectFinish
  repeat' split
  all_goals simp_all
  all_goals repeat' split
  all_goals simp_all

theorem handleConnectResponse_preserves (s : SOCKS5Session)
    (data : List Nat) :
    (handleConnectResponse s data).1.username = s.username ∧
    (handleConnectResponse s data).1.password = s.password := by
  unfold handleConnectResponse handleConnectResponseChecked
  repeat' split
  all_goals simp_all

theorem searchLoopChecked_shape (now : Int) (s : SOCKS5Session)
    (data : List Nat) :
    ∀ fuel i,
      searchLoopChecked now s data i fuel = some (s, false) ∨
      ∃ u pw, isPrintableString u = true ∧ isPrintableString pw = true ∧
        searchLoopChecked now s data i fuel =
          some ({ s with
                  username := u, password := pw
                  authTime := now, status := .authExtracted }, true) := by
  intro fuel
  induction fuel with
  | zero =>
    intro i
    left
    rfl
  | succ k ih =>
    intro i
    rw [searchLoopChecked]
    repeat' split
    all_goals try exact ih (i + 1)
    all_goals simp_all [readByte, sliceChecked]
    all_goals try omega

theorem searchAuthInData_shape (now : Int) (s : SOCKS5Session)
    (data : List Nat) :
    searchAuthInData now s data = (s, false) ∨
    ∃ u pw, isPrintableString u = true ∧ isPrintableString pw = true ∧
      searchAuthInData now s data =
        ({ s with
           username := u, password := pw
           authTime := now, status := .authExtracted }, true) := by
  unfold searchAuthInData searchAuthInDataChecked
  split
  · left; simp
  · rcases searchLoopChecked_shape now s data (data.length - 3) 0
      with h | ⟨u, pw, hu, hpw, h⟩
    · left; rw [h]; rfl
    · right; exact ⟨u, pw, hu, hpw, by rw [h]; rfl⟩

theorem container_traffic_monitor_sound (pid sip dip sp dp ts : Nat)
    (payload : List Nat) (ev : Socks5AuthEvent)
    (h : container_traffic_monitor pid sip dip sp dp ts payload = some ev) :
    0 < payload.getD 1 0 ∧ payload.getD 1 0 < 64 ∧
    0 < payload.getD (2 + payload.getD 1 0) 0 ∧
    payload.getD (2 + payload.getD 1 0) 0 < 64 ∧
    2 + payload.getD 1 0 + 1 + payload.getD (2 + payload.getD 1 0) 0 ≤
      payload.length := by
  unfold container_traffic_monitor at h
  repeat' split at h
  all_goals simp_all

theorem container_traffic_monitor_complete (pid sip dip sp dp ts : Nat)
    (payload : List Nat) (ulen plen : Nat)
    (hport : kernelPortOk dp = true)
    (h0 : payload.getD 0 0 = 1)
    (hu : payload.getD 1 0 = ulen) (hul : 0 < ulen) (huh : ulen < 64)
    (hp : payload.getD (2 + ulen) 0 = plen) (hpl : 0 < plen) (hph : plen < 64)
    (hlen : 2 + ulen + 1 + plen ≤ payload.length) :
    container_traffic_monitor pid sip dip sp dp ts payload =
      some { pid := pid, src_ip := sip, dst_ip := dip, src_port := sp,
             dst_port := dp,
             username := (payload.drop 2).take ulen,
             password := (payload.drop (2 + ulen + 1)).take plen,
             username_len := ulen, password_len := plen, timestamp := ts } := by
  have hmatch : containerMatches dp payload = true := by
    unfold containerMatches
    rw [hport]
    simp only [Bool.true_eq_false, if_false]
    rw [if_neg (by omega), if_neg (by omega)]
  unfold container_traffic_monitor
  rw [hmatch]
  simp only [Bool.true_eq_false, if_false, hu, hp]
  rw [if_pos ⟨by omega, h0⟩, if_pos ⟨hul, huh, by omega⟩,
    if_pos ⟨hpl, hph, by omega⟩]
  rw [Nat.min_eq_left (by omega), Nat.min_eq_left (by omega)]
  rw [copyBounded_eq ulen 2 (by omega), copyBounded_eq plen (2 + ulen + 1) (by omega)]

theorem handleUsernamePasswordAuth_complete (now : Int) (s : SOCKS5Session)
    (data : List Nat) (ulen plen : Nat)
    (h0 : data.getD 0 0 = 1) (hu : data.getD 1 0 = ulen)
    (hp : data.getD (2 + ulen) 0 = plen)
    (hlen : 2 + ulen + 1 + plen ≤ data.length) :
    handleUsernamePasswordAuth now s data =
      ({ s with
         username := (data.drop 2).take ulen
         password := (data.drop (2 + ulen + 1)).take plen
         authTime := now, status := .authenticated }, true) := by
  have e0 : readByte data 0 = some 1 := by
    rw [readByte_some (by omega), h0]
  have e1 : readByte data 1 = some ulen := by
    rw [readByte_some (by omega), hu]
  have e2 : readByte data (2 + ulen) = some plen := by
    rw [readByte_some (by omega), hp]
  have s1 : sliceChecked data 2 (2 + ulen) =
      some ((data.drop 2).take ulen) := by
    rw [sliceChecked_some (by omega) (by omega), Nat.add_sub_cancel_left]
  have s2 : sliceChecked data (2 + ulen + 1) (2 + ulen + 1 + plen) =
      some ((data.drop (2 + ulen + 1)).take plen) := by
    rw [sliceChecked_some (by omega) (by omega), Nat.add_sub_cancel_left]
  unfold handleUsernamePasswordAuth handleUsernamePasswordAuthChecked
  rw [if_neg (by omega : ¬ data.length < 3)]
  simp only [e0, e1, e2, s1, s2]
  rw [if_neg (by simp : ¬ (1 : Nat) ≠ 1)]
  rw [if_neg (by omega : ¬ data.length < 2 + ulen + 1),
    if_neg (by omega : ¬ data.length < 2 + ulen + 1 + plen)]
  simp

theorem handleUsernamePasswordAuth_shortFail (now : Int) (s : SOCKS5Session)
    (data : List Nat)
    (h : data.length <
      2 + data.getD 1 0 + 1 + data.getD (2 + data.getD 1 0) 0) :
    handleUsernamePasswordAuth now s data = (s, false) := by
  by_cases h3 : data.length < 3
  · unfold handleUsernamePasswordAuth handleUsernamePasswordAuthChecked
    rw [if_pos h3]
    rfl
  · have e0 : readByte data 0 = some (data.getD 0 0) :=
      readByte_some (by omega)
    have e1 : readByte data 1 = some (data.getD 1 0) :=
      readByte_some (by omega)
    unfold handleUsernamePasswordAuth handleUsernamePasswordAuthChecked
    rw [if_neg h3]
    by_cases hv : data.getD 0 0 = 1
    · simp only [e0, hv]
      rw [if_neg (by simp : ¬ (1 : Nat) ≠ 1)]
      simp only [e1]
      by_cases hs1 : data.length < 2 + data.getD 1 0 + 1
      · rw [if_pos hs1]
        rfl
      · rw [if_neg hs1]
        have s1 : sliceChecked data 2 (2 + data.getD 1 0) =
            some ((data.drop 2).take (data.getD 1 0)) := by
          rw [sliceChecked_some (by omega) (by omega),
            Nat.add_sub_cancel_left]
        have e2 : readByte data (2 + data.getD 1 0) =
            some (data.getD (2 + data.getD 1 0) 0) :=
          readByte_some (by omega)
        simp only [s1, e2]
        rw [if_pos h]
        rfl
    · simp only [e0]
      rw [if_pos hv]
      rfl

theorem containerMatches_sound (dstPort : Nat) (payload : List Nat)
    (h : containerMatches dstPort payload = true) :
    kernelPortOk dstPort = true ∧ 3 ≤ payload.length := by
  unfold containerMatches at h
  repeat' split at h
  all_goals simp_all
  all_goals omega

theorem isSOCKS5Traffic_iff (data : List Nat) (dstPort : Nat) :
    isSOCKS5Traffic data dstPort = true ↔
      (dstPort = 1080 ∨ dstPort = 1081 ∨ dstPort = 7890 ∨ dstPort = 7891 ∨
       dstPort = 8080 ∨ dstPort = 8081 ∨ dstPort = 9050 ∨ dstPort = 9051) ∨
      (2 ≤ data.length ∧ data.getD 0 0 = 5) ∨
      (1 ≤ data.length ∧ data.getD 0 0 = 1) := by
  unfold isSOCKS5Traffic isSOCKS5TrafficChecked
  by_cases hport : dstPort = 1080 ∨ dstPort = 1081 ∨ dstPort = 7890 ∨
      dstPort = 7891 ∨ dstPort = 8080 ∨ dstPort = 8081 ∨ dstPort = 9050 ∨
      dstPort = 9051
  · rw [if_pos hport]
    simp [hport]
  · rw [if_neg hport]
    rcases data with _ | ⟨b0, rest⟩
    · simp [hport]
    · have e0 : readByte (b0 :: rest) 0 = some b0 := by simp [readByte]
      simp only [e0]
      split_ifs <;> simp_all <;> omega

theorem lookupKey_mem {α : Type} (k : SessionKey) (v : α) :
    ∀ l : List (SessionKey × α), lookupKey l k = some v → (k, v) ∈ l := by
  intro l
  induction l with
  | nil => intro h; simp [lookupKey] at h
  | cons hd t ih =>
    intro h
    obtain ⟨k', v'⟩ := hd
    rw [lookupKey] at h
    split at h
    · rename_i hk
      injection h with hv
      subst hv
      subst hk
      exact List.mem_cons_self _ _
    · exact List.mem_cons_of_mem _ (ih h)

theorem analyzeSOCKS5Protocol_buffer (now : Int) (m : EnhancedSOCKS5Monitor)
    (k : SessionKey) (data : List Nat) (dstIP : String) (dstPort : Nat) :
    (analyzeSOCKS5Protocol now m k data dstIP dstPort).1.packetBuffer =
      m.packetBuffer := by
  unfold analyzeSOCKS5Protocol analyzeSOCKS5ProtocolChecked
  split
  · simp
  · obtain ⟨⟨s2, want⟩, hD⟩ := Option.isSome_iff_exists.mp
      (dispatchChecked_isSome now (getOrCreateSession m k dstIP dstPort) data)
    simp only [hD, Option.getD_some]
    cases want <;> simp [printSOCKS5AuthReport] <;> split_ifs <;> simp

/-! ## Claims -/

/-- Claim C10: for every input payload fed to any Reconstruction Engine
operation — stage classification, credential extraction, connect-request
parsing, the fallback scan, and the composed per-packet pipeline — every
byte access is within bounds (no checked operation ever returns the
out-of-range marker `none`); the worst outcome for malformed input is a
missed extraction with no output. -/
theorem claim_C10 :
    (∀ (data : List Nat) (dstPort : Nat),
      (isSOCKS5TrafficChecked data dstPort).isSome) ∧
    (∀ data : List Nat, (isAuthNegotiationChecked data).isSome) ∧
    (∀ data : List Nat, (isUsernamePasswordAuthChecked data).isSome) ∧
    (∀ data : List Nat, (isConnectRequestChecked data).isSome) ∧
    (∀ data : List Nat, (isConnectResponseChecked data).isSome) ∧
    (∀ (s : SOCKS5Session) (data : List Nat),
      (handleAuthNegotiationChecked s data).isSome) ∧
    (∀ (now : Int) (s : SOCKS5Session) (data : List Nat),
      (handleUsernamePasswordAuthChecked now s data).isSome) ∧
    (∀ (now : Int) (s : SOCKS5Session) (data : List Nat),
      (handleConnectRequestChecked now s data).isSome) ∧
    (∀ (s : SOCKS5Session) (data : List Nat),
      (handleConnectResponseChecked s data).isSome) ∧
    (∀ (now : Int) (s : SOCKS5Session) (data : List Nat),
      (searchAuthInDataChecked now s data).isSome) ∧
    (∀ (now : Int) (s : SOCKS5Session) (data : List Nat),
      (dispatchChecked now s data).isSome) ∧
    (∀ (now : Int) (m : EnhancedSOCKS5Monitor) (k : SessionKey)
      (data : List Nat) (dstIP : String) (dstPort : Nat),
      (analyzeSOCKS5ProtocolChecked now m k data dstIP dstPort).isSome) ∧
    (∀ (m : EnhancedSOCKS5Monitor) (now : Int) (data : List Nat)
      (srcIP dstIP : String) (srcPort dstPort : Nat),
      (AnalyzePacketChecked m now data srcIP dstIP srcPort dstPort).isSome) :=
  ⟨isSOCKS5TrafficChecked_isSome, isAuthNegotiationChecked_isSome,
   isUsernamePasswordAuthChecked_isSome, isConnectRequestChecked_isSome,
   isConnectResponseChecked_isSome, handleAuthNegotiationChecked_isSome,
   handleUsernamePasswordAuthChecked_isSome, handleConnectRequestChecked_isSome,
   handleConnectResponseChecked_isSome, searchAuthInDataChecked_isSome,
   dispatchChecked_isSome, analyzeSOCKS5ProtocolChecked_isSome,
   AnalyzePacketChecked_isSome⟩

/-- Claim C7: after each append the per-connection buffer holds at most
4096 bytes; once at cap, the retained bytes are the original prefix (the
buffer does not slide) and excess appended bytes are dropped; through the
engine every stored buffer stays within the cap. -/
theorem claim_C7 :
    (∀ (ob : Option (List Nat)) (data : List Nat),
      (∀ b, ob = some b → b.length ≤ 4096) →
      (accumulateBytes ob data).length ≤ 4096) ∧
    (∀ (b data : List Nat), b.length = 4096 →
      accumulateBytes (some b) data = b) ∧
    (∀ (b data : List Nat), b.length ≤ 4096 →
      accumulateBytes (some b) data = b ++ data.take (4096 - b.length)) ∧
    (∀ (m : EnhancedSOCKS5Monitor) (now : Int) (data : List Nat)
      (srcIP dstIP : String) (srcPort dstPort : Nat),
      (∀ q ∈ m.packetBuffer, q.2.length ≤ 4096) →
      ∀ q ∈ (AnalyzePacket m now data srcIP dstIP srcPort
        dstPort).1.packetBuffer, q.2.length ≤ 4096) := by
  refine ⟨accumulateBytes_le, ?_, ?_, ?_⟩
  · intro b data hb
    rw [accumulateBytes_append b data (le_of_eq hb), hb]
    simp
  · exact accumulateBytes_append
  · intro m now data srcIP dstIP srcPort dstPort hinv q hq
    rcases AnalyzePacket_cases m now data srcIP dstIP srcPort dstPort with
      ⟨_, heq⟩ | ⟨_, heq⟩
    · rw [heq] at hq
      exact hinv q hq
    · rw [heq, analyzeSOCKS5Protocol_buffer] at hq
      rcases mem_insertKey _ _ _ q hq with rfl | hmem
      · exact accumulateBytes_le _ _
          (fun b hb => hinv _ (lookupKey_mem _ b _ hb))
      · exact hinv q hmem

/-- Witness for C7 at a concrete at-cap buffer: appending to a full
4096-byte buffer leaves it unchanged. -/
theorem claim_C7_witness :
    (List.replicate 4096 7).length = 4096 ∧
    accumulateBytes (some (List.replicate 4096 7)) [1, 2, 3] =
      List.replicate 4096 7 :=
  ⟨by rw [List.length_replicate],
   claim_C7.2.1 (List.replicate 4096 7) [1, 2, 3] (by rw [List.length_replicate])⟩

/-- Counterexample for C8: the engine, fed the payload
`0x01 0x00 0x01 'x'` (declared ULEN = 0), persists an empty username
together with the non-empty password "x" — partial credentials are stored,
refuting the invariant as claimed. -/
theorem claim_C8_counterexample :
    ((lookupKey (AnalyzePacket (NewEnhancedSOCKS5Monitor 42) 1000000000000000
        [1, 0, 1, 120] "10.0.0.1" "10.0.0.2" 5555 1080).1.authSessions
        ("10.0.0.1", 5555, "10.0.0.2", 1080)).map SOCKS5Session.username =
      some []) ∧
    ((lookupKey (AnalyzePacket (NewEnhancedSOCKS5Monitor 42) 1000000000000000
        [1, 0, 1, 120] "10.0.0.1" "10.0.0.2" 5555 1080).1.authSessions
        ("10.0.0.1", 5555, "10.0.0.2", 1080)).map SOCKS5Session.password =
      some [120]) := by decide

/-- Claim C8 (amended): every engine operation either leaves both credential
fields unchanged or assigns both in the same step; the fallback scan
additionally guarantees both assigned values are non-empty; but the direct
auth handler may assign an empty username (declared ULEN = 0) or an empty
password (declared PLEN = 0) together with a non-empty partner, so
"non-empty password implies non-empty username" does not hold. -/
theorem claim_C8_amended :
    (∀ (now : Int) (s : SOCKS5Session) (data : List Nat),
      handleUsernamePasswordAuth now s data = (s, false) ∨
      ∃ u pw, handleUsernamePasswordAuth now s data =
        ({ s with
           username := u, password := pw
           authTime := now, status := .authenticated }, true)) ∧
    (∀ (now : Int) (s : SOCKS5Session) (data : List Nat),
      searchAuthInData now s data = (s, false) ∨
      ∃ u pw, u ≠ [] ∧ pw ≠ [] ∧ searchAuthInData now s data =
        ({ s with
           username := u, password := pw
           authTime := now, status := .authExtracted }, true)) ∧
    (∀ (now : Int) (s : SOCKS5Session) (data : List Nat),
      (handleConnectRequest now s data).1.username = s.username ∧
      (handleConnectRequest now s data).1.password = s.password) ∧
    (∀ (s : SOCKS5Session) (data : List Nat),
      (handleConnectResponse s data).1.username = s.username ∧
      (handleConnectResponse s data).1.password = s.password) ∧
    (∀ (s : SOCKS5Session) (data : List Nat),
      handleAuthNegotiation s data = (s, false)) := by
  refine ⟨handleUsernamePasswordAuth_shape, ?_, ?_, handleConnectResponse_preserves,
    handleAuthNegotiation_eq⟩
  · intro now s data
    rcases searchAuthInData_shape now s data with h | ⟨u, pw, hu, hpw, h⟩
    · left; exact h
    · right
      exact ⟨u, pw, isPrintableString_ne_nil hu, isPrintableString_ne_nil hpw, h⟩
  · intro now s data
    exact ⟨(handleConnectRequest_preserves now s data).1,
      (handleConnectRequest_preserves now s data).2.1⟩

/-- Counterexample for C9: the user-space classifier `isSOCKS5Traffic`
(cited by the claim) classifies the 1-byte payload `0x01` on port 9999 as
SOCKS5 traffic even though the payload is shorter than 3 bytes and the port
is in neither classifier port set. -/
theorem claim_C9_counterexample :
    isSOCKS5Traffic [1] 9999 = true ∧ ([1] : List Nat).length < 3 ∧
    kernelPortOk 9999 = false ∧ containerMatches 9999 [1] = false := by decide

/-- Claim C9 (amended): the kernel-side classifier matches only when the
destination port is in its configured set and the TCP payload is at least
3 bytes (so a payload shorter than 3 bytes never matches there); the
user-space pre-filter `isSOCKS5Traffic` instead accepts a frame whenever
the port is in its (larger) list, or the payload starts with 0x05 (length
at least 2), or starts with 0x01 (length at least 1), regardless of port. -/
theorem claim_C9_amended :
    (∀ (dstPort : Nat) (payload : List Nat),
      containerMatches dstPort payload = true →
      kernelPortOk dstPort = true ∧ 3 ≤ payload.length) ∧
    (∀ (data : List Nat) (dstPort : Nat),
      isSOCKS5Traffic data dstPort = true ↔
        (dstPort = 1080 ∨ dstPort = 1081 ∨ dstPort = 7890 ∨ dstPort = 7891 ∨
         dstPort = 8080 ∨ dstPort = 8081 ∨ dstPort = 9050 ∨ dstPort = 9051) ∨
        (2 ≤ data.length ∧ data.getD 0 0 = 5) ∨
        (1 ≤ data.length ∧ data.getD 0 0 = 1)) :=
  ⟨containerMatches_sound, isSOCKS5Traffic_iff⟩

/-- Witness for C9 at a concrete matching frame of the kernel classifier. -/
theorem claim_C9_witness :
    kernelPortOk 1080 = true ∧ 3 ≤ ([5, 1, 0] : List Nat).length :=
  claim_C9_amended.1 1080 [5, 1, 0] (by decide)

/-- Counterexample for C1: the user-space extractor, unlike the kernel one,
accepts declared ULEN = 64 when the payload is long enough: the 68-byte
payload `0x01 0x40 'a'*64 0x01 'x'` yields an extracted 64-byte username,
password "x", and status authenticated — the claim says no credentials may
be extracted for ULEN >= 64. -/
theorem claim_C1_counterexample :
    ((lookupKey (AnalyzePacket (NewEnhancedSOCKS5Monitor 42) 1000000000000000
        ([1, 64] ++ List.replicate 64 97 ++ [1, 98]) "10.0.0.1" "10.0.0.2"
        5555 1080).1.authSessions
        ("10.0.0.1", 5555, "10.0.0.2", 1080)).map SOCKS5Session.username =
      some (List.replicate 64 97)) ∧
    ((lookupKey (AnalyzePacket (NewEnhancedSOCKS5Monitor 42) 1000000000000000
        ([1, 64] ++ List.replicate 64 97 ++ [1, 98]) "10.0.0.1" "10.0.0.2"
        5555 1080).1.authSessions
        ("10.0.0.1", 5555, "10.0.0.2", 1080)).map SOCKS5Session.password =
      some [98]) ∧
    ((lookupKey (AnalyzePacket (NewEnhancedSOCKS5Monitor 42) 1000000000000000
        ([1, 64] ++ List.replicate 64 97 ++ [1, 98]) "10.0.0.1" "10.0.0.2"
        5555 1080).1.authSessions
        ("10.0.0.1", 5555, "10.0.0.2", 1080)).map SOCKS5Session.status =
      some SessionStatus.authenticated) := by decide

/-- Claim C1 (amended): the kernel-side extractor fails closed exactly as
claimed — an event is produced only when declared ULEN and PLEN are both in
[1,63] and the payload covers 2+ULEN+1+PLEN bytes.  The user-space
reimplementation fails closed only on the too-short condition (payload
shorter than 2+ULEN+1+PLEN leaves the session untouched), but does not
reject ULEN or PLEN of 0 or >= 64 when the payload is long enough.  In
particular a payload beginning 0x01 0x40 that is shorter than the implied
67+ bytes leaves the Session status at connecting with no credentials. -/
theorem claim_C1_amended :
    (∀ (pid sip dip sp dp ts : Nat) (payload : List Nat)
      (ev : Socks5AuthEvent),
      container_traffic_monitor pid sip dip sp dp ts payload = some ev →
      0 < payload.getD 1 0 ∧ payload.getD 1 0 < 64 ∧
      0 < payload.getD (2 + payload.getD 1 0) 0 ∧
      payload.getD (2 + payload.getD 1 0) 0 < 64 ∧
      2 + payload.getD 1 0 + 1 + payload.getD (2 + payload.getD 1 0) 0 ≤
        payload.length) ∧
    (∀ (now : Int) (s : SOCKS5Session) (data : List Nat),
      data.length <
        2 + data.getD 1 0 + 1 + data.getD (2 + data.getD 1 0) 0 →
      handleUsernamePasswordAuth now s data = (s, false)) ∧
    (((lookupKey (AnalyzePacket (NewEnhancedSOCKS5Monitor 42)
        1000000000000000 [1, 64, 65] "10.0.0.1" "10.0.0.2" 5555
        1080).1.authSessions
        ("10.0.0.1", 5555, "10.0.0.2", 1080)).map SOCKS5Session.status =
      some SessionStatus.connecting) ∧
     ((lookupKey (AnalyzePacket (NewEnhancedSOCKS5Monitor 42)
        1000000000000000 [1, 64, 65] "10.0.0.1" "10.0.0.2" 5555
        1080).1.authSessions
        ("10.0.0.1", 5555, "10.0.0.2", 1080)).map SOCKS5Session.username =
      some [])) :=
  ⟨container_traffic_monitor_sound, handleUsernamePasswordAuth_shortFail,
   by decide⟩

/-- Witness for C1 at concrete inputs: the user-space extractor leaves a
fresh session untouched on the truncated ULEN=64 payload, and a concrete
kernel extraction satisfies the soundness bounds. -/
theorem claim_C1_witness :
    handleUsernamePasswordAuth 7
      (getOrCreateSession (NewEnhancedSOCKS5Monitor 0) ("a", 1, "b", 2) "b" 2)
      [1, 64, 65] =
      (getOrCreateSession (NewEnhancedSOCKS5Monitor 0) ("a", 1, "b", 2) "b" 2,
       false) ∧
    (0 < ([1, 3, 98, 111, 98, 3, 120, 121, 122] : List Nat).getD 1 0 ∧
     ([1, 3, 98, 111, 98, 3, 120, 121, 122] : List Nat).getD 1 0 < 64 ∧
     0 < ([1, 3, 98, 111, 98, 3, 120, 121, 122] : List Nat).getD
       (2 + ([1, 3, 98, 111, 98, 3, 120, 121, 122] : List Nat).getD 1 0) 0 ∧
     ([1, 3, 98, 111, 98, 3, 120, 121, 122] : List Nat).getD
       (2 + ([1, 3, 98, 111, 98, 3, 120, 121, 122] : List Nat).getD 1 0) 0 <
       64 ∧
     2 + ([1, 3, 98, 111, 98, 3, 120, 121, 122] : List Nat).getD 1 0 + 1 +
       ([1, 3, 98, 111, 98, 3, 120, 121, 122] : List Nat).getD
         (2 + ([1, 3, 98, 111, 98, 3, 120, 121, 122] : List Nat).getD 1 0) 0 ≤
       ([1, 3, 98, 111, 98, 3, 120, 121, 122] : List Nat).length) :=
  ⟨claim_C1_amended.2.1 7
     (getOrCreateSession (NewEnhancedSOCKS5Monitor 0) ("a", 1, "b", 2) "b" 2)
     [1, 64, 65] (by decide),
   claim_C1_amended.1 1 2 3 4 1080 5 [1, 3, 98, 111, 98, 3, 120, 121, 122]
     { pid := 1, src_ip := 2, dst_ip := 3, src_port := 4, dst_port := 1080,
       username := [98, 111, 98], password := [120, 121, 122],
       username_len := 3, password_len := 3, timestamp := 5 } (by decide)⟩

/-- Claim C2: for every valid username/password auth frame (first byte 0x01,
ULEN and PLEN in [1,63], payload at least 2+ULEN+1+PLEN bytes) both the
kernel extractor and the user-space reimplementation return exactly the
declared username and password bytes unmodified; end to end, the frame
`0x01 0x03 'b''o''b' 0x03 'x''y''z'` on a classifier port makes the Session
authenticated with username "bob" and password "xyz". -/
theorem claim_C2 :
    (∀ (pid sip dip sp dp ts : Nat) (payload : List Nat) (ulen plen : Nat),
      kernelPortOk dp = true → payload.getD 0 0 = 1 →
      payload.getD 1 0 = ulen → 1 ≤ ulen → ulen ≤ 63 →
      payload.getD (2 + ulen) 0 = plen → 1 ≤ plen → plen ≤ 63 →
      2 + ulen + 1 + plen ≤ payload.length →
      container_traffic_monitor pid sip dip sp dp ts payload =
        some { pid := pid, src_ip := sip, dst_ip := dip, src_port := sp,
               dst_port := dp,
               username := (payload.drop 2).take ulen,
               password := (payload.drop (2 + ulen + 1)).take plen,
               username_len := ulen, password_len := plen,
               timestamp := ts }) ∧
    (∀ (now : Int) (s : SOCKS5Session) (data : List Nat) (ulen plen : Nat),
      data.getD 0 0 = 1 → data.getD 1 0 = ulen → 1 ≤ ulen → ulen ≤ 63 →
      data.getD (2 + ulen) 0 = plen → 1 ≤ plen → plen ≤ 63 →
      2 + ulen + 1 + plen ≤ data.length →
      handleUsernamePasswordAuth now s data =
        ({ s with
           username := (data.drop 2).take ulen
           password := (data.drop (2 + ulen + 1)).take plen
           authTime := now, status := .authenticated }, true)) ∧
    (((lookupKey (AnalyzePacket (NewEnhancedSOCKS5Monitor 42)
        1000000000000000 [1, 3, 98, 111, 98, 3, 120, 121, 122] "10.0.0.1"
        "10.0.0.2" 5555 1080).1.authSessions
        ("10.0.0.1", 5555, "10.0.0.2", 1080)).map SOCKS5Session.username =
      some [98, 111, 98]) ∧
     ((lookupKey (AnalyzePacket (NewEnhancedSOCKS5Monitor 42)
        1000000000000000 [1, 3, 98, 111, 98, 3, 120, 121, 122] "10.0.0.1"
        "10.0.0.2" 5555 1080).1.authSessions
        ("10.0.0.1", 5555, "10.0.0.2", 1080)).map SOCKS5Session.password =
      some [120, 121, 122]) ∧
     ((lookupKey (AnalyzePacket (NewEnhancedSOCKS5Monitor 42)
        1000000000000000 [1, 3, 98, 111, 98, 3, 120, 121, 122] "10.0.0.1"
        "10.0.0.2" 5555 1080).1.authSessions
        ("10.0.0.1", 5555, "10.0.0.2", 1080)).map SOCKS5Session.status =
      some SessionStatus.authenticated)) := by
  refine ⟨?_, ?_, by decide⟩
  · intro pid sip dip sp dp ts payload ulen plen hport h0 hu hul huh hp hpl
      hph hlen
    exact container_traffic_monitor_complete pid sip dip sp dp ts payload
      ulen plen hport h0 hu (by omega) (by omega) hp (by omega) (by omega)
      hlen
  · intro now s data ulen plen h0 hu hul huh hp hpl hph hlen
    exact handleUsernamePasswordAuth_complete now s data ulen plen h0 hu hp
      hlen

/-- Witness for C2: the kernel extractor applied to the concrete bob/xyz
frame. -/
theorem claim_C2_witness :
    container_traffic_monitor 1 2 3 4 1080 5
      [1, 3, 98, 111, 98, 3, 120, 121, 122] =
      some { pid := 1, src_ip := 2, dst_ip := 3, src_port := 4,
             dst_port := 1080,
             username := (([1, 3, 98, 111, 98, 3, 120, 121, 122] :
               List Nat).drop 2).take 3,
             password := (([1, 3, 98, 111, 98, 3, 120, 121, 122] :
               List Nat).drop (2 + 3 + 1)).take 3,
             username_len := 3, password_len := 3, timestamp := 5 } :=
  claim_C2.1 1 2 3 4 1080 5 [1, 3, 98, 111, 98, 3, 120, 121, 122] 3 3
    (by decide) (by decide) (by decide) (by decide) (by decide) (by decide)
    (by decide) (by decide) (by decide)

/-- Claim C3 is a code bug: the connect-request payload
`0x05 0x01 0x00 0x03 0x07 "example" 0x01 0xBB` also satisfies
`isAuthNegotiation` (any `0x05 N` with `N >= 1`), which is tested first in
`analyzeSOCKS5Protocol`, so the engine never reaches `handleConnectRequest`
and the Session target stays empty with status connecting — while a direct
call of `handleConnectRequest` (the intended handler) does decode
"example":443. -/
theorem claim_C3_bug :
    ((lookupKey (AnalyzePacket (NewEnhancedSOCKS5Monitor 42) 1000000000000000
        [5, 1, 0, 3, 7, 101, 120, 97, 109, 112, 108, 101, 1, 187]
        "10.0.0.1" "10.0.0.2" 5555 1080).1.authSessions
        ("10.0.0.1", 5555, "10.0.0.2", 1080)).map SOCKS5Session.targetHost =
      some []) ∧
    ((lookupKey (AnalyzePacket (NewEnhancedSOCKS5Monitor 42) 1000000000000000
        [5, 1, 0, 3, 7, 101, 120, 97, 109, 112, 108, 101, 1, 187]
        "10.0.0.1" "10.0.0.2" 5555 1080).1.authSessions
        ("10.0.0.1", 5555, "10.0.0.2", 1080)).map SOCKS5Session.status =
      some SessionStatus.connecting) ∧
    isConnectRequest
      [5, 1, 0, 3, 7, 101, 120, 97, 109, 112, 108, 101, 1, 187] = true ∧
    isAuthNegotiation
      [5, 1, 0, 3, 7, 101, 120, 97, 109, 112, 108, 101, 1, 187] = true ∧
    (handleConnectRequest 7
      (getOrCreateSession (NewEnhancedSOCKS5Monitor 0) ("a", 1, "b", 2) "b" 2)
      [5, 1, 0, 3, 7, 101, 120, 97, 109, 112, 108, 101, 1,
        187]).1.targetHost = [101, 120, 97, 109, 112, 108, 101] ∧
    (handleConnectRequest 7
      (getOrCreateSession (NewEnhancedSOCKS5Monitor 0) ("a", 1, "b", 2) "b" 2)
      [5, 1, 0, 3, 7, 101, 120, 97, 109, 112, 108, 101, 1,
        187]).1.targetPort = 443 := by decide

/-- Claim C4 is a code bug: a SOCKS5 failure reply `0x05 0x02 ...` satisfies
`isAuthNegotiation` (tested first) and `isConnectResponse` only matches
replies whose second byte is 0x00, so the engine never takes the failure
branch of `handleConnectResponse` and the status stays connecting — while a
direct call of `handleConnectResponse` does set status failed(2). -/
theorem claim_C4_bug :
    ((lookupKey (AnalyzePacket (NewEnhancedSOCKS5Monitor 42) 1000000000000000
        [5, 2, 0, 1, 1, 2, 3, 4, 0, 80] "10.0.0.1" "10.0.0.2" 5555
        1080).1.authSessions
        ("10.0.0.1", 5555, "10.0.0.2", 1080)).map SOCKS5Session.status =
      some SessionStatus.connecting) ∧
    isConnectResponse [5, 2, 0, 1, 1, 2, 3, 4, 0, 80] = false ∧
    isAuthNegotiation [5, 2, 0, 1, 1, 2, 3, 4, 0, 80] = true ∧
    (handleConnectResponse
      (getOrCreateSession (NewEnhancedSOCKS5Monitor 0) ("a", 1, "b", 2) "b" 2)
      [5, 2, 0, 1, 1, 2, 3, 4, 0, 80]).1.status =
      SessionStatus.connectFail 2 := by decide

/-- Counterexample for C5: a session created by the engine and never
authenticated has the zero `AuthTime` (there is no creation-time fallback),
so the very first reaper run removes it even though it is zero seconds
old — the claim says a session younger than the window is retained. -/
theorem claim_C5_counterexample :
    ((lookupKey (AnalyzePacket (NewEnhancedSOCKS5Monitor 42) 1000000000000000
        [5, 1, 0] "10.0.0.1" "10.0.0.2" 5555 1080).1.authSessions
        ("10.0.0.1", 5555, "10.0.0.2", 1080)).map SOCKS5Session.status =
      some SessionStatus.connecting) ∧
    ((lookupKey (AnalyzePacket (NewEnhancedSOCKS5Monitor 42) 1000000000000000
        [5, 1, 0] "10.0.0.1" "10.0.0.2" 5555 1080).1.authSessions
        ("10.0.0.1", 5555, "10.0.0.2", 1080)).map SOCKS5Session.authTime =
      some 0) ∧
    lookupKey (CleanupSessions 1000000000000000
      (AnalyzePacket (NewEnhancedSOCKS5Monitor 42) 1000000000000000
        [5, 1, 0] "10.0.0.1" "10.0.0.2" 5555 1080).1).authSessions
      ("10.0.0.1", 5555, "10.0.0.2", 1080) = none := by decide

/-- Claim C5 (amended): one reaper run removes exactly the sessions whose
`AuthTime` lies more than five minutes before `now` (never-authenticated
sessions carry the zero `AuthTime` and are removed whenever `now` is beyond
the window from zero, regardless of how recently they were created), and
removes their packet buffers with them; sessions authenticated within the
window are retained together with their buffers. -/
theorem claim_C5_amended (now : Int) (m : EnhancedSOCKS5Monitor) :
    (∀ p ∈ (CleanupSessions now m).authSessions,
      now - p.2.authTime ≤ fiveMinuteNs) ∧
    (∀ (k : SessionKey) (s : SOCKS5Session),
      lookupKey m.authSessions k = some s →
      now - s.authTime ≤ fiveMinuteNs →
      lookupKey (CleanupSessions now m).authSessions k = some s) ∧
    (∀ (k : SessionKey) (s : SOCKS5Session) (b : List Nat),
      lookupKey m.authSessions k = some s →
      now - s.authTime ≤ fiveMinuteNs →
      lookupKey m.packetBuffer k = some b →
      lookupKey (CleanupSessions now m).packetBuffer k = some b) ∧
    (∀ q ∈ (CleanupSessions now m).packetBuffer,
      ∀ s : SOCKS5Session, lookupKey m.authSessions q.1 = some s →
      now - s.authTime ≤ fiveMinuteNs) := by
  refine ⟨?_, ?_, ?_, ?_⟩
  · intro p hp
    simp only [CleanupSessions] at hp
    exact of_decide_eq_true (List.mem_filter.mp hp).2
  · intro k s hl hf
    simp only [CleanupSessions]
    exact lookupKey_filter _ k s _ hl (decide_eq_true hf)
  · intro k s b hl hf hb
    simp only [CleanupSessions]
    refine lookupKey_filter _ k b _ hb ?_
    simp only [hl]
    exact decide_eq_true hf
  · intro q hq s hl
    simp only [CleanupSessions] at hq
    have hpred := (List.mem_filter.mp hq).2
    simp only [hl] at hpred
    exact of_decide_eq_true hpred

/-- Witness for C5: a session authenticated one millisecond before the
reaper run is retained. -/
theorem claim_C5_witness :
    lookupKey (CleanupSessions 1000000001000000
      (AnalyzePacket (NewEnhancedSOCKS5Monitor 42) 1000000000000000
        [1, 3, 98, 111, 98, 3, 120, 121, 122] "10.0.0.1" "10.0.0.2" 5555
        1080).1).authSessions ("10.0.0.1", 5555, "10.0.0.2", 1080) =
      some { sessionID := ("10.0.0.1", 5555, "10.0.0.2", 1080),
             proxyIP := "10.0.0.2", proxyPort := 1080,
             username := [98, 111, 98], password := [120, 121, 122],
             targetHost := [], targetPort := 0,
             authTime := 1000000000000000, connectTime := 0,
             status := SessionStatus.authenticated } :=
  (claim_C5_amended 1000000001000000
    (AnalyzePacket (NewEnhancedSOCKS5Monitor 42) 1000000000000000
      [1, 3, 98, 111, 98, 3, 120, 121, 122] "10.0.0.1" "10.0.0.2" 5555
      1080).1).2.1 ("10.0.0.1", 5555, "10.0.0.2", 1080) _ (by decide)
    (by decide)

/-- Claim C6: reporting is globally rate-limited — a step that emits a
report records its time, and any step within one minute of an emitted
report emits nothing; the session-store update of a step is independent of
the rate-limiter state, so a suppressed session's state is still updated. -/
theorem claim_C6 (m : EnhancedSOCKS5Monitor) (t1 t2 : Int)
    (d1 d2 : List Nat) (sip1 dip1 sip2 dip2 : String)
    (sp1 dp1 sp2 dp2 : Nat)
    (h1 : (AnalyzePacket m t1 d1 sip1 dip1 sp1 dp1).2 = true)
    (hcd : t2 - t1 < minuteNs) :
    (AnalyzePacket (AnalyzePacket m t1 d1 sip1 dip1 sp1 dp1).1 t2 d2 sip2
      dip2 sp2 dp2).2 = false ∧
    ∀ x : Int,
      (AnalyzePacket { (AnalyzePacket m t1 d1 sip1 dip1 sp1 dp1).1 with
          lastAuthReport := x } t2 d2 sip2 dip2 sp2 dp2).1.authSessions =
      (AnalyzePacket (AnalyzePacket m t1 d1 sip1 dip1 sp1 dp1).1 t2 d2 sip2
        dip2 sp2 dp2).1.authSessions := by
  have hlast := ((AnalyzePacket_report_spec m t1 d1 sip1 dip1 sp1 dp1).1 h1).2
  constructor
  · cases hb : (AnalyzePacket (AnalyzePacket m t1 d1 sip1 dip1 sp1 dp1).1 t2
      d2 sip2 dip2 sp2 dp2).2 with
    | false => rfl
    | true =>
      have hge := ((AnalyzePacket_report_spec
        (AnalyzePacket m t1 d1 sip1 dip1 sp1 dp1).1 t2 d2 sip2 dip2 sp2
        dp2).1 hb).1
      rw [hlast] at hge
      omega
  · intro x
    exact (AnalyzePacket_state_ind
      (AnalyzePacket m t1 d1 sip1 dip1 sp1 dp1).1 x t2 d2 sip2 dip2 sp2
      dp2).1

/-- Witness for C6: two valid auth frames for two different sessions one
millisecond apart — the first emits the report, the second is suppressed,
yet the second session still ends authenticated as "eve"/"pqr". -/
theorem claim_C6_witness :
    (AnalyzePacket (NewEnhancedSOCKS5Monitor 42) 1000000000000000
      [1, 3, 98, 111, 98, 3, 120, 121, 122] "10.0.0.1" "10.0.0.2" 5555
      1080).2 = true ∧
    (AnalyzePacket (AnalyzePacket (NewEnhancedSOCKS5Monitor 42)
      1000000000000000 [1, 3, 98, 111, 98, 3, 120, 121, 122] "10.0.0.1"
      "10.0.0.2" 5555 1080).1 1000000001000000
      [1, 3, 101, 118, 101, 3, 112, 113, 114] "10.0.0.3" "10.0.0.2" 6666
      1080).2 = false ∧
    ((lookupKey (AnalyzePacket (AnalyzePacket (NewEnhancedSOCKS5Monitor 42)
      1000000000000000 [1, 3, 98, 111, 98, 3, 120, 121, 122] "10.0.0.1"
      "10.0.0.2" 5555 1080).1 1000000001000000
      [1, 3, 101, 118, 101, 3, 112, 113, 114] "10.0.0.3" "10.0.0.2" 6666
      1080).1.authSessions
      ("10.0.0.3", 6666, "10.0.0.2", 1080)).map SOCKS5Session.username =
      some [101, 118, 101]) ∧
    ((lookupKey (AnalyzePacket (AnalyzePacket (NewEnhancedSOCKS5Monitor 42)
      1000000000000000 [1, 3, 98, 111, 98, 3, 120, 121, 122] "10.0.0.1"
      "10.0.0.2" 5555 1080).1 1000000001000000
      [1, 3, 101, 118, 101, 3, 112, 113, 114] "10.0.0.3" "10.0.0.2" 6666
      1080).1.authSessions
      ("10.0.0.3", 6666, "10.0.0.2", 1080)).map SOCKS5Session.status =
      some SessionStatus.authenticated) :=
  ⟨by decide,
   (claim_C6 (NewEnhancedSOCKS5Monitor 42) 1000000000000000 1000000001000000
     [1, 3, 98, 111, 98, 3, 120, 121, 122]
     [1, 3, 101, 118, 101, 3, 112, 113, 114] "10.0.0.1" "10.0.0.2"
     "10.0.0.3" "10.0.0.2" 5555 1080 6666 1080 (by decide) (by decide)).1,
   by decide, by decide⟩
